import Mathlib

/-!
# Verification of the auto-ytdlp download orchestration engine

Shallow embedding of the Python sources of `auto-ytdlp` (files
`vpn_manager.py`, `performance_control.py`, `download_manager.py`,
`auto_ytdlp.py`) together with proofs of the spec's testable properties.

Modelling conventions:
* Python lists become `List`; the Python `set` `download_archive` is modelled
  as a `List String` with set-like statements phrased via `List.toFinset` /
  membership.
* Python `str.strip()` is modelled by `pyStrip` (drop whitespace from both
  ends of the character list).
* Floating point speeds/thresholds are modelled as exact rationals `ℚ`
  (`vpn_manager.py` converts the configured threshold with `float(...)` and
  compares with `<`; all claims use integral values where the comparison is
  exact).
* A file is modelled at line granularity: a `List String` of the lines
  written / read.  `None` models a file whose `open` raises.
* Exceptions become `Except` / explicit outcome parameters.
-/

namespace AutoYtdlp

/-- Model of Python `str.strip()`: remove whitespace characters from both
ends of the string (used by `auto_ytdlp.load_url_list` and
`performance_control.load_download_archive`). -/
def pyStrip (s : String) : String :=
  String.mk (((s.data.dropWhile Char.isWhitespace).reverse.dropWhile
      Char.isWhitespace).reverse)

/-! ## `vpn_manager.py` — the rotation trigger -/

/-- State of `VPNManager` (`vpn_manager.py`, `__init__`): the configured
cadence `switch_after`, the speed threshold (stored as a float in the
source, modelled as `ℚ`), and the mutable `download_count` counter,
initially `0`. -/
structure VPNManager where
  switch_after : Nat
  speed_threshold : ℚ
  download_count : Nat
deriving DecidableEq

/-- `VPNManager.should_switch` (`vpn_manager.py` lines 50–58):
increment `download_count`; if it reached `switch_after`, reset it to 0 and
signal a switch; otherwise signal a switch iff `current_speed` is below the
threshold (without resetting).  Returns the boolean decision and the updated
state. -/
def VPNManager.should_switch (m : VPNManager) (current_speed : ℚ) :
    Bool × VPNManager :=
  let count := m.download_count + 1
  if m.switch_after ≤ count then
    (true, { m with download_count := 0 })
  else if current_speed < m.speed_threshold then
    (true, { m with download_count := count })
  else
    (false, { m with download_count := count })

/-! ## Task statuses -/

/-- Task statuses appearing in the sources.  `download_manager.py` logs the
strings `Queued`, `Downloading`, `Completed`, `Error: …`, `Cancelled`,
`Stopped`; `performance_control.download_video` returns result dictionaries
with the strings `stopped`, `skipped`, `success`, `cancelled`, `error`
(where `success` is what the spec's status enum calls `Completed`). -/
inductive Status
  | queued
  | downloading
  | completed
  | success
  | error (msg : String)
  | cancelled
  | skipped
  | stopped
deriving DecidableEq

/-- The message of the fault raised by
`PerformanceControl.progress_hook` and matched by the classifier in
`PerformanceControl.download_video` (`'Cancelling download' in str(e)`). -/
def cancellingMsg : String := "Cancelling download"

/-- The `'downloading'` progress-event kind of the external fetch tool. -/
def downloadingEvent : String := "downloading"

/-! ## `performance_control.py` -/

namespace PerformanceControl

/-- `PerformanceControl.add_to_queue` (`performance_control.py` lines
53–54): unconditionally append the url to `download_queue`
(`self.download_queue.append(url)`). -/
def add_to_queue (download_queue : List String) (url : String) :
    List String :=
  download_queue ++ [url]

/-- A Python exception as observed by the handlers in `download_video`:
whether it is a `yt_dlp.utils.DownloadError`, and its `str(e)` message. -/
structure Fault where
  is_download_error : Bool
  msg : String
deriving DecidableEq

/-- Does the character list start with the pattern? -/
def starts_with (hay pat : List Char) : Bool :=
  match hay, pat with
  | _, [] => true
  | [], _ :: _ => false
  | c :: cs, p :: ps => c == p && starts_with cs ps

/-- Does the pattern occur as a contiguous run of the character list? -/
def has_sub (hay pat : List Char) : Bool :=
  match hay with
  | [] => starts_with [] pat
  | _ :: rest => starts_with hay pat || has_sub rest pat

/-- Python's substring test `pat in s`: the pattern occurs somewhere in
`s`. -/
def contains_substr (s pat : String) : Bool :=
  has_sub s.data pat.data

/-- The exception classification of `download_video`
(`performance_control.py` lines 97–102): a `DownloadError` whose message
contains `'Cancelling download'` yields status `cancelled`; every other
fault yields status `error` with the captured message. -/
def classify_fault (e : Fault) : Status :=
  if e.is_download_error && contains_substr e.msg cancellingMsg then
    Status.cancelled
  else
    Status.error e.msg

/-- The mutable state of `PerformanceControl` relevant to the claims:
the download queue, the archive set (modelled as a list), and the stop
flag. -/
structure State where
  download_queue : List String
  download_archive : List String
  stop_flag : Bool
deriving DecidableEq

/-- The observable outcome of one `download_video` call: the returned
status dictionary (`status` and `url`), the state after the call, and
whether the external fetch capability was invoked (`extract_invoked` —
`ydl.extract_info` was reached; `download_invoked` — `ydl.download` was
reached; progress hooks only run inside `ydl.download`). -/
structure DownloadResult where
  status : Status
  url : String
  state : State
  extract_invoked : Bool
  download_invoked : Bool
deriving DecidableEq

/-- `PerformanceControl.progress_hook` (`performance_control.py` lines
106–108): if the stop flag is set while a `'downloading'` progress event
is delivered, raise `DownloadError('Cancelling download')`; otherwise
return normally (the UI output lines have no bearing on control flow). -/
def progress_hook (stop_flag : Bool) (event_status : String) :
    Except Fault Unit :=
  if stop_flag && event_status == downloadingEvent then
    Except.error ⟨true, cancellingMsg⟩
  else
    Except.ok ()

/-- `PerformanceControl.download_video` (`performance_control.py` lines
79–104).  The two external effects are parameters: `extract` is the
outcome of `ydl.extract_info` (the video id, or a fault), `transfer` is
the fault raised by `ydl.download` (`none` = transfer succeeded; a fault
raised by the progress hook propagates here).  Control flow of the
source: if the stop flag is set return `stopped` immediately; otherwise
extract the id, return `skipped` if it is already in the archive, run
the download, record the id on success, and classify any fault. -/
def download_video (s : State) (url : String)
    (extract : Except Fault String) (transfer : Option Fault) :
    DownloadResult :=
  if s.stop_flag then
    ⟨Status.stopped, url, s, false, false⟩
  else
    match extract with
    | Except.error e => ⟨classify_fault e, url, s, true, false⟩
    | Except.ok video_id =>
      if video_id ∈ s.download_archive then
        ⟨Status.skipped, url, s, true, false⟩
      else
        match transfer with
        | some e => ⟨classify_fault e, url, s, true, true⟩
        | none =>
          ⟨Status.success, url,
            { s with download_archive := video_id :: s.download_archive },
            true, true⟩

/-- `PerformanceControl.load_download_archive` (`performance_control.py`
lines 69–72): if the archive file exists (`some` of its lines, each line
still carrying its newline terminator), replace `download_archive` with
the set of stripped lines; if it does not exist (`none`), leave the
archive unchanged. -/
def load_download_archive (download_archive : List String)
    (file : Option (List String)) : List String :=
  match file with
  | none => download_archive
  | some lines => (lines.map pyStrip).dedup

/-- `PerformanceControl.save_download_archive` (`performance_control.py`
lines 74–77): write `f"{item}\n"` for every archive entry.  The file is
modelled as the list of written lines (each entry contains no newline,
which is a hypothesis of the round-trip theorem, so each write emits
exactly one line, inclusive of its terminator). -/
def save_download_archive (download_archive : List String) : List String :=
  download_archive.map (fun item => item ++ "\n")

end PerformanceControl

/-! ## `download_manager.py` -/

namespace DownloadManager

/-- `DownloadManager.add_download` (`download_manager.py` lines 88–90):
unconditionally put the url on `download_queue` and emit a `Queued`
status event. -/
def add_download (download_queue : List String)
    (status_events : List (String × Status)) (url : String) :
    List String × List (String × Status) :=
  (download_queue ++ [url], status_events ++ [(url, Status.queued)])

/-- Claiming the next task (`download_manager.py` line 30,
`self.download_queue.get(block=False)`, and `auto_ytdlp.py` line 59,
`download_queue.pop(0)`): return the FIFO head and the remaining queue,
or the empty sentinel (`none`, the `queue.Empty` path) when the queue is
empty. -/
def claim_next (download_queue : List String) :
    Option (String × List String) :=
  match download_queue with
  | [] => none
  | url :: rest => some (url, rest)

/-- Iterate `claim_next` until the empty sentinel, collecting the claimed
urls in order (the dispatch order of the `run` loop). -/
def claim_all (download_queue : List String) : List String :=
  match h : claim_next download_queue with
  | none => []
  | some (url, rest) => url :: claim_all rest
termination_by download_queue.length
decreasing_by
  cases download_queue with
  | nil => simp [claim_next] at h
  | cons a t =>
    simp [claim_next] at h
    simp [h.2]

/-- Abstract state of the dispatcher (`DownloadManager.run`,
`download_manager.py` lines 25–43, together with the thread pool created
with `max_workers = max_concurrent_downloads` at line 21):
`download_queue` holds not-yet-submitted urls, `pool_pending` holds urls
submitted to the executor but not yet started on a worker, `downloading`
holds the tasks currently executing `download_video` (status
`Downloading`), `finished` the completed futures. -/
structure DispatcherState where
  download_queue : List String
  pool_pending : List String
  downloading : List String
  finished : List String
deriving DecidableEq

/-- One step of the dispatcher system.  `submit` is the run loop taking a
url off the queue and submitting it (`executor.submit`); `start` is the
executor starting a submitted task on a worker thread, which the
`ThreadPoolExecutor(max_workers)` does only while fewer than
`max_workers` tasks are running; `finish` is a running task
completing. -/
inductive DispatcherStep (max_workers : Nat) :
    DispatcherState → DispatcherState → Prop
  | submit (s : DispatcherState) (url : String) (rest : List String) :
      s.download_queue = url :: rest →
      DispatcherStep max_workers s
        { s with download_queue := rest,
                 pool_pending := s.pool_pending ++ [url] }
  | start (s : DispatcherState) (url : String) (rest : List String) :
      s.pool_pending = url :: rest →
      s.downloading.length < max_workers →
      DispatcherStep max_workers s
        { s with pool_pending := rest,
                 downloading := s.downloading ++ [url] }
  | finish (s : DispatcherState) (url : String) :
      url ∈ s.downloading →
      DispatcherStep max_workers s
        { s with downloading := s.downloading.erase url,
                 finished := s.finished ++ [url] }

/-- The states the dispatcher loop can reach: initially any queue with no
submitted, running, or finished tasks, closed under dispatcher steps. -/
inductive DispatcherReachable (max_workers : Nat) : DispatcherState → Prop
  | init (urls : List String) :
      DispatcherReachable max_workers ⟨urls, [], [], []⟩
  | step {s t : DispatcherState} :
      DispatcherReachable max_workers s →
      DispatcherStep max_workers s t →
      DispatcherReachable max_workers t

/-- Outcome of `DownloadManager.stop` draining the queue
(`download_manager.py` lines 110–116): the status events it emits, the
queue it leaves behind, and the urls it dispatched (the drain loop never
submits work, so the latter is always empty). -/
structure StopResult where
  status_events : List (String × Status)
  remaining_queue : List String
  dispatched : List String
deriving DecidableEq

/-- The drain loop of `DownloadManager.stop` (`download_manager.py` lines
110–116), in the case where no task is `Downloading` (so the
process-termination loop at lines 99–108 emits nothing): while the queue
is non-empty, take a url and emit a `Cancelled` status event for it;
nothing is ever dispatched. -/
def stop_drain : List String → StopResult
  | [] => ⟨[], [], []⟩
  | url :: rest =>
    let r := stop_drain rest
    ⟨(url, Status.cancelled) :: r.status_events, r.remaining_queue,
      r.dispatched⟩

end DownloadManager

/-! ## `auto_ytdlp.py` -/

namespace AutoYTDLP

/-- `AutoYTDLP.load_url_list` (`auto_ytdlp.py` lines 33–39): read the
file's lines and return `[line.strip() for line in f if line.strip()]`;
on any exception while opening/reading (`none`), pass the error to the
error handler (which logs it) and return the empty list. -/
def load_url_list (file : Option (List String)) : List String :=
  match file with
  | none => []
  | some lines =>
    (lines.filter (fun line => pyStrip line != "")).map pyStrip

end AutoYTDLP

/-! ## Sample data used by the witness theorems -/

/-- A sample url. -/
def urlA : String := "https://example.com/a"

/-- A second sample url. -/
def urlB : String := "https://example.com/b"

/-- A sample video id. -/
def vidA : String := "id-a"

/-- A second sample video id. -/
def vidB : String := "id-b"

/-! ## Theorems -/

/-- Helper for the rotation trigger: for a counter kept below the cadence
(the invariant maintained from the initial value 0), the source's test
`download_count + 1 ≥ switch_after` coincides with "the post-increment
counter is a (positive) multiple of `switch_after`". -/
theorem VPNManager.cadence_le_iff_dvd (m : VPNManager)
    (h : m.download_count < m.switch_after) :
    (m.switch_after ≤ m.download_count + 1 ↔
      m.switch_after ∣ (m.download_count + 1)) := by
  constructor
  · intro hle
    have heq : m.download_count + 1 = m.switch_after := le_antisymm (by omega) hle
    rw [heq]
  · intro hdvd
    exact Nat.le_of_dvd (Nat.succ_pos _) hdvd

/-- The rotation trigger's counter invariant: starting below the cadence,
one evaluation of `should_switch` leaves the counter below the cadence
again (so the hypothesis of the C1 theorem holds in every reachable
state). -/
theorem VPNManager.should_switch_count_lt (m : VPNManager) (speed : ℚ)
    (h : m.download_count < m.switch_after) :
    ((m.should_switch speed).2.download_count < m.switch_after) := by
  unfold VPNManager.should_switch
  by_cases h1 : m.switch_after ≤ m.download_count + 1
  · rw [if_pos h1]
    show (0 : Nat) < m.switch_after
    omega
  · by_cases h2 : speed < m.speed_threshold
    · rw [if_neg h1, if_pos h2]
      show m.download_count + 1 < m.switch_after
      omega
    · rw [if_neg h1, if_neg h2]
      show m.download_count + 1 < m.switch_after
      omega

/-- C1: with `switch_after = 2`, `speed_threshold = 500`, counter 0,
successive `should_switch` evaluations at speed 1000 give no-rotation
(counter 1), rotation (counter reset to 0), no-rotation (counter 1); at
speed 400 a single evaluation signals rotation for every counter value;
and in general (for counters below the cadence, as maintained from the
initial value 0) an evaluation signals rotation iff the speed is below
the threshold or the post-increment counter is a positive multiple of
`switch_after`, with the counter resetting to 0 exactly in the cadence
case.  The decision is a single boolean, so at most one rotation is
signalled per evaluation even when both conditions hold. -/
theorem VPNManager.should_switch_spec :
    ((VPNManager.mk 2 500 0).should_switch 1000 = (false, VPNManager.mk 2 500 1) ∧
     (VPNManager.mk 2 500 1).should_switch 1000 = (true, VPNManager.mk 2 500 0) ∧
     (VPNManager.mk 2 500 0).should_switch 1000 = (false, VPNManager.mk 2 500 1))
    ∧ (∀ count : Nat, ((VPNManager.mk 2 500 count).should_switch 400).1 = true)
    ∧ (∀ (m : VPNManager) (speed : ℚ), m.download_count < m.switch_after →
        (((m.should_switch speed).1 = true ↔
           speed < m.speed_threshold ∨
             (0 < m.download_count + 1 ∧
               m.switch_after ∣ (m.download_count + 1)))
         ∧ ((m.should_switch speed).2.download_count = 0 ↔
           m.switch_after ∣ (m.download_count + 1)))) := by
  refine ⟨⟨by decide, by decide, by decide⟩, ?_, ?_⟩
  · intro count
    unfold VPNManager.should_switch
    by_cases h : (2 : Nat) ≤ count + 1
    · simp [h]
    · simp [h]
      norm_num
  · intro m speed h
    have key := m.cadence_le_iff_dvd h
    unfold VPNManager.should_switch
    by_cases h1 : m.switch_after ≤ m.download_count + 1
    · rw [if_pos h1]
      constructor
      · constructor
        · intro _
          exact Or.inr ⟨Nat.succ_pos _, key.mp h1⟩
        · intro _
          rfl
      · constructor
        · intro _
          exact key.mp h1
        · intro _
          rfl
    · by_cases h2 : speed < m.speed_threshold
      · rw [if_neg h1, if_pos h2]
        constructor
        · constructor
          · intro _
            exact Or.inl h2
          · intro _
            rfl
        · constructor
          · intro hc
            simp at hc
          · intro hdvd
            exact absurd (key.mpr hdvd) h1
      · rw [if_neg h1, if_neg h2]
        constructor
        · constructor
          · intro hfalse
            exact absurd hfalse (by simp)
          · intro hrhs
            rcases hrhs with hsp | ⟨_, hdvd⟩
            · exact absurd hsp h2
            · exact absurd (key.mpr hdvd) h1
        · constructor
          · intro hc
            simp at hc
          · intro hdvd
            exact absurd (key.mpr hdvd) h1

/-- Witness for C1: the general part instantiated at the configured
trigger `switch_after = 2`, `speed_threshold = 500` with counter 1 and
speed 1000 (the cadence case of the concrete trace). -/
theorem VPNManager.should_switch_spec_witness :
    (((VPNManager.mk 2 500 1).should_switch 1000).1 = true ↔
      (1000 : ℚ) < 500 ∨ (0 < 1 + 1 ∧ 2 ∣ (1 + 1)))
    ∧ (((VPNManager.mk 2 500 1).should_switch 1000).2.download_count = 0 ↔
      2 ∣ (1 + 1)) :=
  VPNManager.should_switch_spec.2.2 (VPNManager.mk 2 500 1) 1000 (by decide)

/-- C2 (counterexample): enqueue is not idempotent.  Starting from the
empty queue — where the url has a non-terminal (queued) task after the
first call — a second `add_to_queue` of the same url leaves two tasks for
it in the queue, not one. -/
theorem add_to_queue_not_idempotent :
    ¬ ((PerformanceControl.add_to_queue
        (PerformanceControl.add_to_queue [] urlA) urlA).count urlA = 1) := by
  decide

/-- C2 (amended): both enqueue operations (`PerformanceControl.add_to_queue`
and `DownloadManager.add_download`) append unconditionally, with no
idempotent-enqueue guard: calling enqueue a second time with a url adds a
second task for it, so after the two calls the queue holds exactly two more
tasks for that url than before. -/
theorem enqueue_second_call_duplicates (q : List String)
    (ev : List (String × Status)) (u : String) :
    ((PerformanceControl.add_to_queue
        (PerformanceControl.add_to_queue q u) u).count u = q.count u + 2)
    ∧ (((DownloadManager.add_download
          (DownloadManager.add_download q ev u).1
          (DownloadManager.add_download q ev u).2 u).1).count u
        = q.count u + 2) := by
  constructor
  · simp [PerformanceControl.add_to_queue, List.count_append]
  · simp [DownloadManager.add_download, List.count_append]

/-- Enqueueing a list of urls one by one appends them in order. -/
theorem foldl_add_to_queue (urls : List String) (init : List String) :
    urls.foldl PerformanceControl.add_to_queue init = init ++ urls := by
  induction urls generalizing init with
  | nil => simp
  | cons u t ih =>
    rw [List.foldl_cons, ih]
    simp [PerformanceControl.add_to_queue]

/-- Iterating `claim_next` on a queue returns its elements in order. -/
theorem claim_all_eq (q : List String) :
    DownloadManager.claim_all q = q := by
  induction q with
  | nil =>
    rw [DownloadManager.claim_all]
    simp [DownloadManager.claim_next]
  | cons a t ih =>
    rw [DownloadManager.claim_all]
    simp [DownloadManager.claim_next, ih]

/-- C7: for every sequence of enqueues with pairwise-distinct urls into
the initially empty queue, iterated claiming returns the tasks in exactly
the enqueue order (FIFO), and claiming from an empty queue yields the
empty sentinel rather than a task. -/
theorem fifo_claim_order (urls : List String) (h : urls.Nodup) :
    DownloadManager.claim_all
        (urls.foldl PerformanceControl.add_to_queue []) = urls
    ∧ DownloadManager.claim_next [] = none := by
  constructor
  · rw [foldl_add_to_queue, List.nil_append, claim_all_eq]
  · rfl

/-- Witness for C7: two distinct urls are claimed back in enqueue
order. -/
theorem fifo_claim_order_witness :
    DownloadManager.claim_all
        (([urlA, urlB]).foldl PerformanceControl.add_to_queue [])
      = [urlA, urlB]
    ∧ DownloadManager.claim_next [] = none :=
  fifo_claim_order [urlA, urlB] (by decide)

/-- Each dispatcher step preserves the bound on the number of
simultaneously downloading tasks: only `start` grows the running set, and
it is guarded by a free worker. -/
theorem DownloadManager.DispatcherStep.downloading_le {max_workers : Nat}
    {s t : DownloadManager.DispatcherState}
    (hstep : DownloadManager.DispatcherStep max_workers s t)
    (hs : s.downloading.length ≤ max_workers) :
    t.downloading.length ≤ max_workers := by
  cases hstep with
  | submit url rest hq => exact hs
  | start url rest hp hlt =>
    show (s.downloading ++ [url]).length ≤ max_workers
    rw [List.length_append]
    simp only [List.length_singleton]
    omega
  | finish url hmem =>
    show (s.downloading.erase url).length ≤ max_workers
    have hsub := (List.erase_sublist url s.downloading).length_le
    omega

/-- C3: in every reachable state of the dispatcher loop (any initial
queue length ≥ 0), the number of tasks simultaneously in the
`Downloading` state never exceeds `max_workers` =
`max_concurrent_downloads`. -/
theorem downloading_bounded (max_workers : Nat)
    (s : DownloadManager.DispatcherState)
    (h : DownloadManager.DispatcherReachable max_workers s) :
    s.downloading.length ≤ max_workers := by
  induction h with
  | init urls => simp
  | step hr hstep ih => exact hstep.downloading_le ih

/-- Witness for C3: the initial state with one queued url is reachable
and has no task downloading. -/
theorem downloading_bounded_witness :
    (DownloadManager.DispatcherState.mk [urlA] [] [] []).downloading.length
      ≤ 3 :=
  downloading_bounded 3 _ (DownloadManager.DispatcherReachable.init [urlA])

/-- The drain loop emits exactly one `Cancelled` event per queued url, in
queue order. -/
theorem stop_drain_events (q : List String) :
    (DownloadManager.stop_drain q).status_events
      = q.map (fun u => (u, Status.cancelled)) := by
  induction q with
  | nil => rfl
  | cons u t ih => simp [DownloadManager.stop_drain, ih]

/-- The drain loop leaves the queue empty. -/
theorem stop_drain_remaining (q : List String) :
    (DownloadManager.stop_drain q).remaining_queue = [] := by
  induction q with
  | nil => rfl
  | cons u t ih => simp [DownloadManager.stop_drain, ih]

/-- The drain loop never dispatches a task. -/
theorem stop_drain_dispatched (q : List String) :
    (DownloadManager.stop_drain q).dispatched = [] := by
  induction q with
  | nil => rfl
  | cons u t ih => simp [DownloadManager.stop_drain, ih]

/-- C5: if stop is requested while `N` tasks are queued and none is
downloading, the drain marks every queued task `Cancelled` (one event per
task, `N` in total, none `Completed`), dispatches none of them, and
leaves the pending queue empty. -/
theorem stop_drains_queue (queued : List String) :
    (DownloadManager.stop_drain queued).status_events
        = queued.map (fun u => (u, Status.cancelled))
    ∧ (DownloadManager.stop_drain queued).status_events.length
        = queued.length
    ∧ (DownloadManager.stop_drain queued).remaining_queue = []
    ∧ (DownloadManager.stop_drain queued).dispatched = []
    ∧ ∀ e ∈ (DownloadManager.stop_drain queued).status_events,
        e.2 = Status.cancelled ∧ e.2 ≠ Status.completed := by
  refine ⟨stop_drain_events queued, ?_, stop_drain_remaining queued,
    stop_drain_dispatched queued, ?_⟩
  · rw [stop_drain_events]
    simp
  · rw [stop_drain_events]
    intro e he
    rw [List.mem_map] at he
    obtain ⟨u, hu, rfl⟩ := he
    exact ⟨rfl, by simp⟩

/-- Filtering on the stripped value and then stripping equals stripping
every line and then dropping the blank ones. -/
theorem filter_map_pyStrip (lines : List String) :
    (lines.filter (fun l => pyStrip l != "")).map pyStrip
      = (lines.map pyStrip).filter (fun l => l != "") := by
  induction lines with
  | nil => rfl
  | cons a t ih =>
    by_cases h : pyStrip a = ""
    · simp [List.filter_cons, List.map_cons, h, ih]
    · simp [List.filter_cons, List.map_cons, h, ih]

/-- C8: the url-list loader returns the file's lines stripped of
surrounding whitespace with the blank lines removed, preserving order;
and for a missing or unreadable file it returns the empty list (after
logging through the error handler) instead of raising. -/
theorem load_url_list_spec :
    AutoYTDLP.load_url_list none = []
    ∧ ∀ lines, AutoYTDLP.load_url_list (some lines)
        = (lines.map pyStrip).filter (fun l => l != "") := by
  refine ⟨rfl, ?_⟩
  intro lines
  show (lines.filter (fun l => pyStrip l != "")).map pyStrip
      = (lines.map pyStrip).filter (fun l => l != "")
  exact filter_map_pyStrip lines

/-- Dropping a prefix never lengthens a list. -/
theorem length_dropWhile_le (p : Char → Bool) (l : List Char) :
    (l.dropWhile p).length ≤ l.length := by
  induction l with
  | nil => simp
  | cons x xs ih =>
    rw [List.dropWhile_cons]
    by_cases hp : p x = true
    · rw [if_pos hp]
      simp only [List.length_cons]
      omega
    · rw [if_neg hp]

/-- A `dropWhile` that preserves the length dropped nothing. -/
theorem dropWhile_eq_self_of_length (p : Char → Bool) (l : List Char)
    (h : (l.dropWhile p).length = l.length) : l.dropWhile p = l := by
  cases l with
  | nil => rfl
  | cons x xs =>
    rw [List.dropWhile_cons]
    by_cases hp : p x = true
    · exfalso
      rw [List.dropWhile_cons, if_pos hp] at h
      have hle := length_dropWhile_le p xs
      simp only [List.length_cons] at h
      omega
    · rw [if_neg hp]

/-- If `dropWhile` dropped nothing from a non-empty list, its head fails
the predicate. -/
theorem dropWhile_head_false (p : Char → Bool) (x : Char) (xs : List Char)
    (h : List.dropWhile p (x :: xs) = x :: xs) : p x = false := by
  by_cases hp : p x = true
  · exfalso
    rw [List.dropWhile_cons, if_pos hp] at h
    have hle := length_dropWhile_le p xs
    have hlen := congrArg List.length h
    simp only [List.length_cons] at hlen
    omega
  · simpa using hp

/-- A fixed point of `pyStrip` has no leading and no trailing whitespace. -/
theorem pyStrip_fixed (a : String) (h : pyStrip a = a) :
    a.data.dropWhile Char.isWhitespace = a.data
    ∧ a.data.reverse.dropWhile Char.isWhitespace = a.data.reverse := by
  have hdata :
      ((a.data.dropWhile Char.isWhitespace).reverse.dropWhile
          Char.isWhitespace).reverse = a.data := congrArg String.data h
  have h1 := length_dropWhile_le Char.isWhitespace a.data
  have h2 := length_dropWhile_le Char.isWhitespace
      (a.data.dropWhile Char.isWhitespace).reverse
  have h3 := congrArg List.length hdata
  simp only [List.length_reverse] at h2 h3
  have h5 : a.data.dropWhile Char.isWhitespace = a.data :=
    dropWhile_eq_self_of_length _ _ (by omega)
  refine ⟨h5, ?_⟩
  rw [h5] at hdata
  have h6 := congrArg List.reverse hdata
  simpa using h6

/-- Stripping a written archive line (`item ++ "\n"`) recovers the item,
provided the item is non-empty and free of surrounding whitespace. -/
theorem pyStrip_append_newline (a : String) (hne : a ≠ "")
    (h : pyStrip a = a) : pyStrip (a ++ "\n") = a := by
  obtain ⟨h1, h2⟩ := pyStrip_fixed a h
  have hd : (a ++ "\n").data = a.data ++ ['\n'] := String.data_append a "\n"
  have hdne : a.data ≠ [] := by
    intro hnil
    apply hne
    cases a
    simp at hnil
    simp [hnil]
  unfold pyStrip
  rw [hd]
  cases hcase : a.data with
  | nil => exact absurd hcase hdne
  | cons x xs =>
    have hx : Char.isWhitespace x = false :=
      dropWhile_head_false _ _ _ (by rw [← hcase, h1, hcase])
    rw [List.cons_append, List.dropWhile_cons, if_neg (by simp [hx])]
    rw [show (x :: (xs ++ ['\n'])) = (x :: xs) ++ ['\n'] from rfl]
    rw [List.reverse_append, List.reverse_singleton, List.singleton_append]
    rw [List.dropWhile_cons, if_pos (by decide)]
    rw [← hcase, h2, List.reverse_reverse]

/-- C10: for an archive whose entries are non-empty strings with no
newline and no surrounding whitespace, saving the archive with
`save_download_archive` and loading the resulting file with
`load_download_archive` restores a `download_archive` equal to the
original set. -/
theorem archive_round_trip (prev archive : List String)
    (h : ∀ a ∈ archive, a ≠ "" ∧ (∀ c ∈ a.data, c ≠ '\n') ∧ pyStrip a = a) :
    (PerformanceControl.load_download_archive prev
        (some (PerformanceControl.save_download_archive archive))).toFinset
      = archive.toFinset := by
  show ((archive.map (fun item => item ++ "\n")).map pyStrip).dedup.toFinset
      = archive.toFinset
  rw [List.map_map]
  have hmap : archive.map (pyStrip ∘ fun item => item ++ "\n") = archive := by
    induction archive with
    | nil => rfl
    | cons a t ih =>
      have ha := h a (List.mem_cons_self a t)
      rw [List.map_cons]
      rw [Function.comp_apply, pyStrip_append_newline a ha.1 ha.2.2]
      rw [ih (fun b hb => h b (List.mem_cons_of_mem a hb))]
  rw [hmap]
  ext x
  simp [List.mem_dedup]

/-- Witness for C10: saving and loading a two-element archive restores
the same set. -/
theorem archive_round_trip_witness :
    (PerformanceControl.load_download_archive []
        (some (PerformanceControl.save_download_archive
          [vidA, vidB]))).toFinset
      = ([vidA, vidB] : List String).toFinset :=
  archive_round_trip [] [vidA, vidB] (by decide)

/-- The cancellation message matches itself under the substring test of
the classifier. -/
theorem contains_substr_cancelling :
    PerformanceControl.contains_substr cancellingMsg cancellingMsg = true := by
  decide

/-- C4: when the progress callback observes the stop flag during a
`downloading` progress event it raises
`DownloadError('Cancelling download')`; a fetch whose transfer faults
with that signal gets the single terminal status `cancelled` — not
`error` and not `success` — and a fault that does not match the
cancellation signal is classified `error`, distinguishing cancellation
from a genuine transfer error. -/
theorem cancellation_mid_transfer (s : PerformanceControl.State)
    (url vid : String) (hstop : s.stop_flag = false)
    (hvid : vid ∉ s.download_archive) :
    PerformanceControl.progress_hook true downloadingEvent
        = Except.error ⟨true, cancellingMsg⟩
    ∧ (PerformanceControl.download_video s url (Except.ok vid)
          (some ⟨true, cancellingMsg⟩)).status = Status.cancelled
    ∧ (∀ msg, (PerformanceControl.download_video s url (Except.ok vid)
          (some ⟨true, cancellingMsg⟩)).status ≠ Status.error msg)
    ∧ (PerformanceControl.download_video s url (Except.ok vid)
          (some ⟨true, cancellingMsg⟩)).status ≠ Status.success
    ∧ (∀ e : PerformanceControl.Fault,
        PerformanceControl.contains_substr e.msg cancellingMsg = false →
        PerformanceControl.classify_fault e = Status.error e.msg) := by
  have hres : (PerformanceControl.download_video s url (Except.ok vid)
      (some ⟨true, cancellingMsg⟩)).status = Status.cancelled := by
    simp [PerformanceControl.download_video, hstop, hvid,
      PerformanceControl.classify_fault, contains_substr_cancelling]
  refine ⟨rfl, hres, ?_, ?_, ?_⟩
  · intro msg
    rw [hres]
    simp
  · rw [hres]
    simp
  · intro e he
    simp [PerformanceControl.classify_fault, he]

/-- Witness for C4: a mid-transfer cancellation fault on an empty-archive
state terminates with status `cancelled`. -/
theorem cancellation_mid_transfer_witness :
    (PerformanceControl.download_video
        (PerformanceControl.State.mk [] [] false) urlA (Except.ok vidA)
        (some ⟨true, cancellingMsg⟩)).status = Status.cancelled :=
  (cancellation_mid_transfer (PerformanceControl.State.mk [] [] false)
    urlA vidA rfl (by simp)).2.1

/-- C6: an id already in the archive ledger makes the fetch terminate
`skipped` without invoking the transfer and without changing the state; a
successful download records its id in the ledger; hence fetching the same
url twice (the second time after the first succeeded) yields `success`
(the spec's `Completed`) then `skipped`. -/
theorem archive_skip (s : PerformanceControl.State) (url vid : String)
    (hstop : s.stop_flag = false) :
    (vid ∈ s.download_archive →
      ∀ transfer,
        (PerformanceControl.download_video s url (Except.ok vid)
            transfer).status = Status.skipped
        ∧ (PerformanceControl.download_video s url (Except.ok vid)
            transfer).download_invoked = false
        ∧ (PerformanceControl.download_video s url (Except.ok vid)
            transfer).state = s)
    ∧ (vid ∉ s.download_archive →
        (PerformanceControl.download_video s url (Except.ok vid)
            none).status = Status.success
        ∧ vid ∈ (PerformanceControl.download_video s url (Except.ok vid)
            none).state.download_archive)
    ∧ (vid ∉ s.download_archive →
        (PerformanceControl.download_video s url (Except.ok vid)
            none).status = Status.success
        ∧ (PerformanceControl.download_video
            (PerformanceControl.download_video s url (Except.ok vid)
              none).state url (Except.ok vid) none).status
          = Status.skipped) := by
  refine ⟨?_, ?_, ?_⟩
  · intro hmem transfer
    refine ⟨?_, ?_, ?_⟩
    all_goals simp [PerformanceControl.download_video, hstop, hmem]
  · intro hmem
    constructor
    · simp [PerformanceControl.download_video, hstop, hmem]
    · simp [PerformanceControl.download_video, hstop, hmem]
  · intro hmem
    constructor
    · simp [PerformanceControl.download_video, hstop, hmem]
    · simp [PerformanceControl.download_video, hstop, hmem]

/-- Witness for C6: on an empty archive the same url fetched twice yields
`success` then `skipped`. -/
theorem archive_skip_witness :
    (PerformanceControl.download_video
        (PerformanceControl.State.mk [] [] false) urlA (Except.ok vidA)
        none).status = Status.success
    ∧ (PerformanceControl.download_video
        (PerformanceControl.download_video
            (PerformanceControl.State.mk [] [] false) urlA (Except.ok vidA)
            none).state urlA (Except.ok vidA) none).status
      = Status.skipped :=
  (archive_skip (PerformanceControl.State.mk [] [] false) urlA vidA rfl).2.2
    (by simp)

/-- C9: if the stop flag is already set when `download_video` is invoked,
the call returns the record with status `stopped` (a status outside the
spec's terminal enum) and the url, immediately: `ydl.extract_info` and
`ydl.download` are never invoked (so no progress event is emitted), and
the state — download queue, archive set, stop flag — is unchanged. -/
theorem stop_flag_short_circuit (s : PerformanceControl.State)
    (url : String) (h : s.stop_flag = true)
    (extract : Except PerformanceControl.Fault String)
    (transfer : Option PerformanceControl.Fault) :
    PerformanceControl.download_video s url extract transfer
      = ⟨Status.stopped, url, s, false, false⟩ := by
  simp [PerformanceControl.download_video, h]

/-- Witness for C9: with the stop flag set, a nontrivial state passes
through unchanged and the status is `stopped`. -/
theorem stop_flag_short_circuit_witness :
    PerformanceControl.download_video
        (PerformanceControl.State.mk [urlA] [vidB] true) urlB
        (Except.ok vidB) none
      = ⟨Status.stopped, urlB,
          PerformanceControl.State.mk [urlA] [vidB] true, false, false⟩ :=
  stop_flag_short_circuit (PerformanceControl.State.mk [urlA] [vidB] true)
    urlB rfl (Except.ok vidB) none

end AutoYtdlp
